import Mathlib

/-!
Verification of the `magic-spells/bottom-sheet` widget (the `BottomSheet`
custom element).  The JavaScript source is shallowly embedded: the mutable
instance fields, the relevant DOM attributes/styles and the trace of
dispatched `CustomEvent`s form one state record, and every handler becomes a
pure state-transformer.  Screen coordinates, scroll offsets and widths are
JavaScript numbers; they are modelled by `ℚ` (the rubber-band offset, which
goes through `Math.sqrt`, lives in `ℝ`).  `maxDisplayWidth` defaults to
`Infinity`, modelled by `WithTop ℚ`.
-/

namespace BottomSheet

/-- The drag direction stored in `drag.direction` (`'up'` / `'down'`;
`none` models JavaScript `null`). -/
inductive Direction where
  | up
  | down
  deriving DecidableEq, Repr

/-- The `_.drag` object of the `BottomSheet` class. -/
structure Drag where
  isDragging : Bool
  startY : ℚ
  currentY : ℚ
  endY : ℚ
  delta : ℚ
  direction : Option Direction
  isHeader : Bool
  isOverlay : Bool
  isAtTop : Bool
  deriving DecidableEq, Repr

/-- The inline `panel.style.transform` value: `cleared` models the code
setting it to `null`; `translate y` models `translate3d(0, y px, 0)`. -/
inductive Transform where
  | cleared
  | translate (y : ℝ)

/-- The four inline styles the code writes on `document.body`
(`overflow`, `position`, `top`, `width`).  `top = some p` models the
string `-(p)px` built from the saved scroll position `p`. -/
structure BodyStyle where
  overflow : Option String
  position : Option String
  top : Option ℚ
  width : Option String
  deriving DecidableEq, Repr

/-- `document.body` with none of the four inline styles set. -/
def BodyStyle.unlockedStyle : BodyStyle :=
  { overflow := none, position := none, top := none, width := none }

/-- `document.body` as written by `toggleBodyScroll(true)` when the saved
page offset is `p`. -/
def BodyStyle.lockedStyle (p : ℚ) : BodyStyle :=
  { overflow := some "hidden", position := some "fixed",
    top := some p, width := some "100%" }

/-- The `CustomEvent`s the component dispatches. -/
inductive Event where
  | openEvent
  | closeEvent
  deriving DecidableEq, Repr

/-- The full state of one `BottomSheet` instance together with the pieces
of browser state its handlers read and write. -/
structure Sheet where
  /-- the `aria-hidden` attribute (`true` string ↔ `true`) -/
  ariaHidden : Bool
  /-- whether the `inert` attribute is present -/
  inert : Bool
  /-- whether `panel.classList` contains `transitioning` -/
  transitioning : Bool
  /-- `panel.style.transform` -/
  transform : Transform
  /-- the `_.drag` object -/
  drag : Drag
  /-- `#maxDisplayWidth`; `⊤` models `Infinity` (no limit) -/
  maxDisplayWidth : WithTop ℚ
  /-- `#scrollPosition` -/
  scrollPosition : ℚ
  /-- `window.innerWidth` -/
  innerWidth : ℚ
  /-- `window.pageYOffset` -/
  pageYOffset : ℚ
  /-- `panelContent.scrollTop` -/
  contentScrollTop : ℚ
  /-- the inline styles on `document.body` -/
  body : BodyStyle
  /-- append-only trace of dispatched events -/
  events : List Event

/-- The guard `window.innerWidth > _.maxDisplayWidth` used by `show` and by
the resize handler. -/
def Sheet.widthExceeded (s : Sheet) : Prop :=
  s.maxDisplayWidth < (s.innerWidth : WithTop ℚ)

instance (s : Sheet) : Decidable s.widthExceeded :=
  inferInstanceAs (Decidable (s.maxDisplayWidth < (s.innerWidth : WithTop ℚ)))

/-- `toggleBodyScroll(disable)`: saves/restores the page scroll position and
writes/removes the four body styles. -/
def toggleBodyScroll (disable : Bool) (s : Sheet) : Sheet :=
  if disable then
    { s with
      scrollPosition := s.pageYOffset,
      body := BodyStyle.lockedStyle s.pageYOffset }
  else
    { s with
      body := BodyStyle.unlockedStyle,
      pageYOffset := s.scrollPosition,
      scrollPosition := 0 }

/-- `show()`: refused silently when the viewport is wider than
`maxDisplayWidth`; otherwise flips the attributes, adds the `transitioning`
class, clears the inline transform, locks body scroll and dispatches
`bottomsheet:open`. -/
def «show» (s : Sheet) : Sheet :=
  if s.widthExceeded then s
  else
    let s1 : Sheet :=
      { s with ariaHidden := false, inert := false,
               transitioning := true, transform := Transform.cleared }
    let s2 := toggleBodyScroll true s1
    { s2 with events := s2.events ++ [Event.openEvent] }

/-- `hide()`: unconditionally flips the attributes, adds the `transitioning`
class, clears the inline transform, unlocks body scroll and dispatches
`bottomsheet:close`. -/
def hide (s : Sheet) : Sheet :=
  let s1 : Sheet :=
    { s with ariaHidden := true, inert := true,
             transitioning := true, transform := Transform.cleared }
  let s2 := toggleBodyScroll false s1
  { s2 with events := s2.events ++ [Event.closeEvent] }

/-- The data a `touchstart` event delivers: the touch's `screenY` and the
results of the two `e.target.closest(...)` zone tests. -/
structure TouchStart where
  screenY : ℚ
  inHeader : Bool
  inOverlay : Bool
  deriving DecidableEq, Repr

/-- `panelDragStart(e)`: resets the session, removes the `transitioning`
class, records the origin-zone flags and activates the session when the
touch is on the header, on the overlay, or the content is scrolled to 0. -/
def panelDragStart (e : TouchStart) (s : Sheet) : Sheet :=
  let isHeader := e.inHeader
  let isOverlay := e.inOverlay
  let isAtTop := decide (s.contentScrollTop = 0)
  let drag0 : Drag :=
    { s.drag with
      startY := e.screenY, direction := none, delta := 0,
      isHeader := isHeader, isOverlay := isOverlay, isAtTop := isAtTop }
  let drag1 : Drag :=
    if isHeader || isOverlay || isAtTop then { drag0 with isDragging := true }
    else drag0
  { s with transitioning := false, drag := drag1 }

/-- The data a `touchmove` event delivers. -/
structure TouchMove where
  screenY : ℚ
  cancelable : Bool
  deriving DecidableEq, Repr

/-- Whether the handler called `e.preventDefault()` / `e.stopPropagation()`
on the touch-move event. -/
structure MoveEffects where
  preventedDefault : Bool
  stoppedPropagation : Bool
  deriving DecidableEq, Repr

/-- The `#overscrollResistance` physics constant. -/
def overscrollResistance : ℝ := 0.1

/-- `#applyResistance(value)` = `Math.sqrt(value) * 10 * #overscrollResistance`. -/
noncomputable def applyResistance (value : ℝ) : ℝ :=
  Real.sqrt value * 10 * overscrollResistance

/-- The `#dragThreshold` constant (pixels needed to dismiss by dragging). -/
def dragThreshold : ℚ := 100

/-- The tail of `panelDragMove` once the handler has decided to control the
panel: prevent default (when cancelable), stop propagation, and write the
transform — resisted upward for a negative delta, 1:1 downward for a
positive one, untouched at delta 0. -/
noncomputable def moveIntercept (e : TouchMove) (s : Sheet) : Sheet × MoveEffects :=
  let eff : MoveEffects :=
    { preventedDefault := e.cancelable, stoppedPropagation := true }
  let delta := s.drag.delta
  if delta < 0 then
    ({ s with transform := Transform.translate (-(applyResistance ((|delta| : ℚ) : ℝ))) }, eff)
  else if delta > 0 then
    ({ s with transform := Transform.translate ((delta : ℚ) : ℝ) }, eff)
  else (s, eff)

/-- `panelDragMove(e)`: inactive sessions are ignored; the delta and the
once-per-session direction are updated; a content-origin session that was
not at the top (or is moving up at the top) is left to native scrolling;
otherwise the panel movement is controlled via `moveIntercept`. -/
noncomputable def panelDragMove (e : TouchMove) (s : Sheet) : Sheet × MoveEffects :=
  let drag := s.drag
  if drag.isDragging = false then
    (s, { preventedDefault := false, stoppedPropagation := false })
  else
    let currentY := e.screenY
    let delta := currentY - drag.startY
    let direction : Option Direction :=
      match drag.direction with
      | none => if delta < 0 then some Direction.up else some Direction.down
      | some d => some d
    let drag1 : Drag :=
      { drag with currentY := currentY, delta := delta, direction := direction }
    let s1 : Sheet := { s with drag := drag1 }
    if !drag1.isHeader && !drag1.isOverlay then
      if !drag1.isAtTop then
        (s1, { preventedDefault := false, stoppedPropagation := false })
      else if direction = some Direction.up then
        (s1, { preventedDefault := false, stoppedPropagation := false })
      else moveIntercept e s1
    else moveIntercept e s1

/-- `panelDragEnd(e)`: no-op for inactive sessions; otherwise deactivates
the session, re-adds the `transitioning` class, resets `delta`/`direction`,
and hands off — `hide()` past the threshold, `show()` otherwise (upward
drags always snap back through `show()`). -/
def panelDragEnd (s : Sheet) : Sheet :=
  let drag := s.drag
  if drag.isDragging = false then s
  else
    let s1 : Sheet :=
      { s with transitioning := true,
               drag := { drag with isDragging := false } }
    if drag.delta < 0 then
      «show» { s1 with drag := { s1.drag with delta := 0, direction := none } }
    else if drag.delta > dragThreshold then
      hide { s1 with drag := { s1.drag with delta := 0, direction := none } }
    else
      «show» { s1 with drag := { s1.drag with delta := 0, direction := none } }

/-- The data a `transitionend` event delivers: the finished property and
whether `e.target` is the panel element itself (the event bubbles, so a
child's transition can also reach the panel's listener). -/
structure TransitionEvent where
  propertyName : String
  targetIsPanel : Bool
  deriving DecidableEq, Repr

/-- `handleTransitionEnd(e)`: removes the `transitioning` class when the
event reports the `transform` property.  (The code never inspects
`e.target`.) -/
def handleTransitionEnd (e : TransitionEvent) (s : Sheet) : Sheet :=
  if e.propertyName = "transform" then { s with transitioning := false }
  else s

/-- `#handleKeyDown(e)`: on `Escape` while `aria-hidden` is `'false'`,
prevent default and `hide()`.  Returns the new state and whether
`preventDefault` was called. -/
def handleKeyDown (key : String) (s : Sheet) : Sheet × Bool :=
  if key = "Escape" ∧ s.ariaHidden = false then (hide s, true)
  else (s, false)

/-- The body of the (throttled) `windowResize` handler: hide when the
viewport is wider than `maxDisplayWidth`. -/
def windowResizeHandler (s : Sheet) : Sheet :=
  if s.widthExceeded then hide s else s

/-- The `actionClick` handler: a click whose target closest-matches
`[data-action-hide-bottom-sheet]` prevents default and hides. -/
def actionClick (hitHideButton : Bool) (s : Sheet) : Sheet :=
  if hitHideButton then hide s else s

/-- The sheet together with the state of the `throttle(…, 100)` closure
wrapping the resize handler.  The throttle is leading-edge with no
trailing call: while `inThrottle` is `true`, a notification is dropped
without the handler ever observing it; a `setTimeout` later resets the
flag without re-running the handler. -/
structure Widget where
  sheet : Sheet
  inThrottle : Bool

/-- One message delivered to the component: a public call, a DOM event, or
an environment change (native scrolling, viewport resize, the timer of the
throttle firing, the `maxDisplayWidth` property being set at runtime).  A
`resize w` sets `window.innerWidth` to `w` and then offers the
notification to the throttled handler, which drops it while `inThrottle`
is set. -/
inductive Op where
  | showOp
  | hideOp
  | dragStart (e : TouchStart)
  | dragMove (e : TouchMove)
  | dragEnd
  | keydown (key : String)
  | transitionEnd (e : TransitionEvent)
  | resize (w : ℚ)
  | throttleExpire
  | setMaxDisplayWidth (m : WithTop ℚ)
  | overlayClick
  | action (hitHideButton : Bool)
  | scrollContent (v : ℚ)
  | scrollPage (p : ℚ)

/-- The step function of the event-driven system: dispatch one message.
`resize` mirrors the source's `throttle` wrapper: the handler body runs
only when the throttle window is open, and opens it; `throttleExpire` is
the `setTimeout` callback clearing the flag (no trailing handler call);
`setMaxDisplayWidth` is the property setter / `attributeChangedCallback`,
which updates the backing field without any width re-check. -/
noncomputable def step (t : Widget) : Op → Widget
  | Op.showOp => { t with sheet := «show» t.sheet }
  | Op.hideOp => { t with sheet := hide t.sheet }
  | Op.dragStart e => { t with sheet := panelDragStart e t.sheet }
  | Op.dragMove e => { t with sheet := (panelDragMove e t.sheet).1 }
  | Op.dragEnd => { t with sheet := panelDragEnd t.sheet }
  | Op.keydown key => { t with sheet := (handleKeyDown key t.sheet).1 }
  | Op.transitionEnd e => { t with sheet := handleTransitionEnd e t.sheet }
  | Op.resize w =>
    let s1 : Sheet := { t.sheet with innerWidth := w }
    if t.inThrottle then { sheet := s1, inThrottle := true }
    else { sheet := windowResizeHandler s1, inThrottle := true }
  | Op.throttleExpire => { t with inThrottle := false }
  | Op.setMaxDisplayWidth m =>
    { t with sheet := { t.sheet with maxDisplayWidth := m } }
  | Op.overlayClick => { t with sheet := hide t.sheet }
  | Op.action hit => { t with sheet := actionClick hit t.sheet }
  | Op.scrollContent v => { t with sheet := { t.sheet with contentScrollTop := v } }
  | Op.scrollPage p => { t with sheet := { t.sheet with pageYOffset := p } }

/-- Deliver a list of messages in order. -/
noncomputable def run (t : Widget) (ops : List Op) : Widget :=
  ops.foldl step t

/-- The state built by the constructor and `setupAriaAttributes`:
`aria-hidden` and `inert` set, drag session at its defaults, no inline
transform, no body styles, nothing dispatched yet. -/
def initialSheet (maxW : WithTop ℚ) (w scrollTop pageY : ℚ) : Sheet :=
  { ariaHidden := true, inert := true, transitioning := false,
    transform := Transform.cleared,
    drag := { isDragging := false, startY := 0, currentY := 0, endY := 0,
              delta := 0, direction := none, isHeader := false,
              isOverlay := false, isAtTop := false },
    maxDisplayWidth := maxW, scrollPosition := 0,
    innerWidth := w, pageYOffset := pageY, contentScrollTop := scrollTop,
    body := BodyStyle.unlockedStyle, events := [] }

/-- The state after `connectedCallback`: the initial width check hides the
sheet when the viewport is already too wide. -/
def connected (maxW : WithTop ℚ) (w scrollTop pageY : ℚ) : Sheet :=
  let s := initialSheet maxW w scrollTop pageY
  if s.widthExceeded then hide s else s

/-- The widget after `connectedCallback`: the freshly created throttle
closure has its flag down. -/
def connectedW (maxW : WithTop ℚ) (w scrollTop pageY : ℚ) : Widget :=
  { sheet := connected maxW w scrollTop pageY, inThrottle := false }

/-- Run a list of `touchmove` events, collecting each call's
prevent-default / stop-propagation record. -/
noncomputable def runMoves : List TouchMove → Sheet → Sheet × List MoveEffects
  | [], s => (s, [])
  | e :: ms, s =>
    let r := panelDragMove e s
    let rest := runMoves ms r.1
    (rest.1, r.2 :: rest.2)

/-- A freshly attached sheet with no width limit, viewport width 500 and
page scroll offset 30. -/
def noLimitInit : Sheet := initialSheet ⊤ 500 0 30

/-- The sheet of `noLimitInit` right after `show()`. -/
def shownState : Sheet := «show» noLimitInit

/-- The sheet of `shownState` right after `hide()`. -/
def hiddenAgainState : Sheet := hide shownState

/-- A sheet with `max-display-width` 768 on a 500-wide viewport, right
after `show()` — its slide-in transition is still in flight (the
`transitioning` class is present). -/
def midShowState : Sheet := «show» (initialSheet ((768 : ℚ) : WithTop ℚ) 500 0 0)

/-- A freshly attached, unlocked sheet with `max-display-width` 600 on a
900-wide viewport and page scroll offset 30. -/
def wideInit : Sheet := initialSheet ((600 : ℚ) : WithTop ℚ) 900 0 30

/-- A mid-drag state on a viewport that has grown past
`max-display-width` (e.g. after a rotation during the gesture): the
session is active on the header with delta 50 and the drag has written a
50 px transform. -/
def snapBackWideState : Sheet :=
  { ariaHidden := false, inert := false, transitioning := false,
    transform := Transform.translate 50,
    drag := { isDragging := true, startY := 100, currentY := 150, endY := 0,
              delta := 50, direction := some Direction.down, isHeader := true,
              isOverlay := false, isAtTop := false },
    maxDisplayWidth := ((600 : ℚ) : WithTop ℚ), scrollPosition := 20,
    innerWidth := 900, pageYOffset := 0, contentScrollTop := 0,
    body := BodyStyle.lockedStyle 20, events := [] }

/-- The width invariant of the spec: the sheet is only shown while the
viewport is within `maxDisplayWidth`. -/
def widthInv (s : Sheet) : Prop :=
  s.ariaHidden = false → ¬ s.widthExceeded

/-! ### Helper lemmas -/

theorem show_of_wide (s : Sheet) (hw : s.widthExceeded) : «show» s = s := by
  simp [«show», hw]

theorem show_eq_of_not_wide (s : Sheet) (hw : ¬ s.widthExceeded) :
    «show» s =
      { s with ariaHidden := false, inert := false, transitioning := true,
               transform := Transform.cleared,
               scrollPosition := s.pageYOffset,
               body := BodyStyle.lockedStyle s.pageYOffset,
               events := s.events ++ [Event.openEvent] } := by
  simp [«show», toggleBodyScroll, hw]

theorem hide_eq (s : Sheet) :
    hide s =
      { s with ariaHidden := true, inert := true, transitioning := true,
               transform := Transform.cleared,
               body := BodyStyle.unlockedStyle,
               pageYOffset := s.scrollPosition, scrollPosition := 0,
               events := s.events ++ [Event.closeEvent] } := by
  simp [hide, toggleBodyScroll]

theorem hide_ariaHidden (s : Sheet) : (hide s).ariaHidden = true := by
  simp [hide_eq]

theorem widthExceeded_show (s : Sheet) :
    («show» s).widthExceeded ↔ s.widthExceeded := by
  by_cases hw : s.widthExceeded
  · rw [show_of_wide s hw]
  · rw [show_eq_of_not_wide s hw]
    simp [Sheet.widthExceeded]

theorem widthExceeded_hide (s : Sheet) :
    (hide s).widthExceeded ↔ s.widthExceeded := by
  rw [hide_eq]
  simp [Sheet.widthExceeded]

/-! ### Claim theorems -/

/-- C2: on touch-start (from an inactive session) the drag session becomes
active if and only if the touch is in the header zone, the overlay zone, or
in the content zone while the content's `scrollTop` is exactly zero; a
content-zone touch with non-zero `scrollTop` never activates a session. -/
theorem dragStart_eligibility (e : TouchStart) (s : Sheet)
    (h : s.drag.isDragging = false) :
    ((panelDragStart e s).drag.isDragging = true ↔
      (e.inHeader = true ∨ e.inOverlay = true ∨
        (e.inHeader = false ∧ e.inOverlay = false ∧ s.contentScrollTop = 0)))
  ∧ (e.inHeader = false → e.inOverlay = false → s.contentScrollTop ≠ 0 →
      (panelDragStart e s).drag.isDragging = false) := by
  constructor
  · by_cases hh : e.inHeader = true <;> by_cases ho : e.inOverlay = true <;>
      by_cases ht : s.contentScrollTop = 0 <;>
      simp_all [panelDragStart]
  · intro hh ho ht
    simp [panelDragStart, hh, ho, ht, h]

theorem dragStart_eligibility_witness :
    (panelDragStart { screenY := 10, inHeader := true, inOverlay := false }
        (initialSheet ⊤ 500 5 0)).drag.isDragging = true
  ∧ (panelDragStart { screenY := 10, inHeader := false, inOverlay := false }
        (initialSheet ⊤ 500 5 0)).drag.isDragging = false :=
  ⟨(dragStart_eligibility { screenY := 10, inHeader := true, inOverlay := false }
      (initialSheet ⊤ 500 5 0) rfl).1.mpr (Or.inl rfl),
   (dragStart_eligibility { screenY := 10, inHeader := false, inOverlay := false }
      (initialSheet ⊤ 500 5 0) rfl).2 rfl rfl (by norm_num [initialSheet])⟩

/-- C9: the `Escape` keydown prevents default and invokes `hide()` exactly
when the `aria-hidden` attribute is `'false'`; any other key, or `Escape`
while hidden, leaves the state untouched and dispatches nothing. -/
theorem escape_closes_only_when_shown (key : String) (s : Sheet) :
    (key = "Escape" ∧ s.ariaHidden = false →
      handleKeyDown key s = (hide s, true))
  ∧ (¬ (key = "Escape" ∧ s.ariaHidden = false) →
      handleKeyDown key s = (s, false)) := by
  constructor
  · intro h
    simp [handleKeyDown, h]
  · intro h
    simp only [handleKeyDown, if_neg h]

theorem escape_closes_only_when_shown_witness :
    handleKeyDown "Escape" shownState = (hide shownState, true)
  ∧ handleKeyDown "Escape" hiddenAgainState = (hiddenAgainState, false) :=
  ⟨(escape_closes_only_when_shown "Escape" shownState).1 ⟨rfl, rfl⟩,
   (escape_closes_only_when_shown "Escape" hiddenAgainState).2
     (by simp [hiddenAgainState, hide_eq])⟩

/-- C8 (amended): a transition-end signal is acted upon (the
`transitioning` class removed) exactly when it reports the `transform`
property, regardless of which element it targets — the handler never
inspects `e.target`, so a `transform` transition-end bubbling from a child
is honored too; events for other properties are ignored. -/
theorem transitionEnd_property_only (e : TransitionEvent) (s : Sheet) :
    (e.propertyName = "transform" →
      handleTransitionEnd e s = { s with transitioning := false })
  ∧ (e.propertyName ≠ "transform" → handleTransitionEnd e s = s)
  ∧ (∀ t : Bool,
      handleTransitionEnd { e with targetIsPanel := t } s =
        handleTransitionEnd e s) := by
  refine ⟨fun h => by simp [handleTransitionEnd, h],
          fun h => by simp [handleTransitionEnd, h],
          fun t => by simp [handleTransitionEnd]⟩

theorem transitionEnd_property_only_witness :
    handleTransitionEnd { propertyName := "transform", targetIsPanel := true }
        shownState = { shownState with transitioning := false }
  ∧ handleTransitionEnd { propertyName := "opacity", targetIsPanel := true }
        shownState = shownState :=
  ⟨(transitionEnd_property_only
      { propertyName := "transform", targetIsPanel := true } shownState).1 rfl,
   (transitionEnd_property_only
      { propertyName := "opacity", targetIsPanel := true } shownState).2.1
     (by decide)⟩

theorem transitionEnd_child_target_counterexample :
    shownState.transitioning = true
  ∧ (handleTransitionEnd { propertyName := "transform", targetIsPanel := false }
        shownState).transitioning = false := by
  constructor <;> rfl

/-- C7 (amended): the upward-overscroll resistance
`offset(v) = sqrt(v) * 10 * 0.1` is strictly monotone on positive
magnitudes, and for magnitudes greater than 1 the offset is strictly less
than the magnitude itself (sub-linearity fails at magnitudes ≤ 1). -/
theorem resistance_monotone (a b : ℝ) (ha : 0 < a) (hab : a < b) :
    applyResistance a < applyResistance b
  ∧ (1 < b → applyResistance b < b) := by
  have key : ∀ x : ℝ, applyResistance x = Real.sqrt x := by
    intro x
    unfold applyResistance overscrollResistance
    rw [mul_assoc]
    norm_num
  constructor
  · rw [key, key]
    exact Real.sqrt_lt_sqrt ha.le hab
  · intro hb
    rw [key]
    exact (Real.sqrt_lt' (by linarith)).mpr (by nlinarith)

theorem resistance_monotone_witness :
    applyResistance 4 < applyResistance 9 ∧ applyResistance 9 < 9 :=
  ⟨(resistance_monotone 4 9 (by norm_num) (by norm_num)).1,
   (resistance_monotone 4 9 (by norm_num) (by norm_num)).2 (by norm_num)⟩

theorem resistance_sublinear_counterexample :
    ¬ (applyResistance ((1 : ℝ)/4) < (1 : ℝ)/4) := by
  have h : applyResistance ((1 : ℝ)/4) = 1/2 := by
    unfold applyResistance overscrollResistance
    rw [show ((1 : ℝ)/4) = (1/2)^2 by norm_num,
        Real.sqrt_sq (by norm_num : (0 : ℝ) ≤ 1/2)]
    norm_num
  rw [h]
  norm_num

/-- C1 (amended): for a session active at touch-end, provided the viewport
width does not exceed `maxDisplayWidth` (otherwise `show()` is refused and
the inline transform is left as the drag wrote it): a terminal delta `d < 0`
or `0 < d ≤ 100` returns the panel to its resting position through the show
path (transform cleared), `d > 100` dismisses through `hide()`; in every
case the session ends with `delta` 0, `direction` cleared and the session
inactive, and an inactive session makes touch-end a no-op. -/
theorem dragEnd_terminal_decision (s : Sheet) (hw : ¬ s.widthExceeded) :
    (s.drag.isDragging = false → panelDragEnd s = s)
  ∧ (s.drag.isDragging = true →
      (panelDragEnd s).drag.isDragging = false
    ∧ (panelDragEnd s).drag.delta = 0
    ∧ (panelDragEnd s).drag.direction = none
    ∧ (s.drag.delta < 0 →
        (panelDragEnd s).ariaHidden = false
      ∧ (panelDragEnd s).transform = Transform.cleared
      ∧ (panelDragEnd s).events = s.events ++ [Event.openEvent])
    ∧ (0 < s.drag.delta → s.drag.delta ≤ dragThreshold →
        (panelDragEnd s).ariaHidden = false
      ∧ (panelDragEnd s).transform = Transform.cleared
      ∧ (panelDragEnd s).events = s.events ++ [Event.openEvent])
    ∧ (dragThreshold < s.drag.delta →
        (panelDragEnd s).ariaHidden = true
      ∧ (panelDragEnd s).transform = Transform.cleared
      ∧ (panelDragEnd s).events = s.events ++ [Event.closeEvent])) := by
  have hae : s.drag.isDragging = true →
      panelDragEnd s =
        if s.drag.delta < 0 then
          «show» { s with
                   transitioning := true,
                   drag := { s.drag with
                             isDragging := false, delta := 0,
                             direction := none } }
        else if s.drag.delta > dragThreshold then
          hide { s with
                 transitioning := true,
                 drag := { s.drag with
                           isDragging := false, delta := 0,
                           direction := none } }
        else
          «show» { s with
                   transitioning := true,
                   drag := { s.drag with
                             isDragging := false, delta := 0,
                             direction := none } } := by
    intro h
    simp [panelDragEnd, h]
  constructor
  · intro h
    simp [panelDragEnd, h]
  · intro h
    have hw1 : ∀ t : Drag,
        ¬ Sheet.widthExceeded { s with transitioning := true, drag := t } := by
      intro t
      simpa [Sheet.widthExceeded] using hw
    by_cases h1 : s.drag.delta < 0
    · rw [hae h, if_pos h1, show_eq_of_not_wide _ (hw1 _)]
      refine ⟨rfl, rfl, rfl, fun _ => ⟨rfl, rfl, rfl⟩, ?_, ?_⟩
      · intro h2 _
        exact absurd h1 (by simp [not_lt.mpr h2.le])
      · intro h2
        exact absurd (h1.trans (by norm_num [dragThreshold])) (lt_asymm h2)
    · by_cases h2 : s.drag.delta > dragThreshold
      · rw [hae h, if_neg h1, if_pos h2, hide_eq]
        refine ⟨rfl, rfl, rfl, fun h3 => absurd h3 h1, ?_, fun _ => ⟨rfl, rfl, rfl⟩⟩
        intro _ h3
        exact absurd h2 (not_lt.mpr h3)
      · rw [hae h, if_neg h1, if_neg h2, show_eq_of_not_wide _ (hw1 _)]
        refine ⟨rfl, rfl, rfl, fun h3 => absurd h3 h1, fun _ _ => ⟨rfl, rfl, rfl⟩, ?_⟩
        intro h3
        exact absurd h3 h2

theorem dragEnd_terminal_decision_witness :
    (panelDragEnd { shownState with
        drag := { shownState.drag with isDragging := true, delta := 150 } }).ariaHidden = true
  ∧ (panelDragEnd { shownState with
        drag := { shownState.drag with isDragging := true, delta := 150 } }).transform =
      Transform.cleared :=
  ⟨((dragEnd_terminal_decision _ (by decide)).2 rfl).2.2.2.2.2
      (by norm_num [shownState, noLimitInit, show_eq_of_not_wide, dragThreshold]) |>.1,
   ((dragEnd_terminal_decision _ (by decide)).2 rfl).2.2.2.2.2
      (by norm_num [shownState, noLimitInit, show_eq_of_not_wide, dragThreshold]) |>.2.1⟩

theorem dragEnd_show_refused_counterexample :
    snapBackWideState.drag.isDragging = true
  ∧ snapBackWideState.drag.delta = 50
  ∧ (0 : ℚ) < 50 ∧ (50 : ℚ) ≤ dragThreshold
  ∧ (panelDragEnd snapBackWideState).transform = Transform.translate 50
  ∧ (panelDragEnd snapBackWideState).transform ≠ Transform.cleared := by
  refine ⟨rfl, rfl, by norm_num, by norm_num [dragThreshold], rfl, ?_⟩
  rw [show (panelDragEnd snapBackWideState).transform = Transform.translate 50 from rfl]
  simp

/-- C3 (amended): the code has no idempotence guard — calling `show()`
while already shown (width permitting) leaves `aria-hidden`/`inert` at
their current values but re-dispatches `bottomsheet:open` and re-runs the
body-scroll lock (re-saving the current page offset), and calling `hide()`
while already hidden re-dispatches `bottomsheet:close` and re-runs the
unlock, scrolling the window to the stored position and zeroing it. -/
theorem show_hide_repeat_effects (s : Sheet) :
    (s.ariaHidden = false → ¬ s.widthExceeded →
      («show» s).ariaHidden = false ∧ («show» s).inert = false
    ∧ («show» s).events = s.events ++ [Event.openEvent]
    ∧ («show» s).scrollPosition = s.pageYOffset
    ∧ («show» s).body = BodyStyle.lockedStyle s.pageYOffset)
  ∧ (s.ariaHidden = true →
      (hide s).ariaHidden = true ∧ (hide s).inert = true
    ∧ (hide s).events = s.events ++ [Event.closeEvent]
    ∧ (hide s).pageYOffset = s.scrollPosition
    ∧ (hide s).scrollPosition = 0
    ∧ (hide s).body = BodyStyle.unlockedStyle) := by
  constructor
  · intro _ hw
    rw [show_eq_of_not_wide s hw]
    exact ⟨rfl, rfl, rfl, rfl, rfl⟩
  · intro _
    rw [hide_eq]
    exact ⟨rfl, rfl, rfl, rfl, rfl, rfl⟩

theorem show_hide_repeat_effects_witness :
    («show» shownState).events = shownState.events ++ [Event.openEvent]
  ∧ (hide hiddenAgainState).events = hiddenAgainState.events ++ [Event.closeEvent] :=
  ⟨((show_hide_repeat_effects shownState).1 rfl (by decide)).2.2.1,
   ((show_hide_repeat_effects hiddenAgainState).2 rfl).2.2.1⟩

theorem show_hide_not_idempotent_counterexample :
    shownState.ariaHidden = false
  ∧ («show» shownState).events = [Event.openEvent, Event.openEvent]
  ∧ hiddenAgainState.ariaHidden = true
  ∧ hiddenAgainState.pageYOffset = 30
  ∧ (hide hiddenAgainState).pageYOffset = 0
  ∧ (hide hiddenAgainState).events =
      [Event.openEvent, Event.closeEvent, Event.closeEvent] := by
  refine ⟨rfl, rfl, rfl, rfl, rfl, rfl⟩

/-- C4 (amended): show and hide transitions are not mutually exclusive —
a `hide()` issued while the show transition is still in flight
(`transitioning` class present, sheet shown) is accepted immediately,
flipping `aria-hidden` to `'true'` and emitting `bottomsheet:close`, and a
`show()` issued while the hide transition is in flight is likewise accepted
whenever the width precondition holds; no request is rejected for being
mid-transition. -/
theorem no_mutual_exclusion (s : Sheet) :
    (s.transitioning = true → s.ariaHidden = false →
      (hide s).ariaHidden = true
    ∧ (hide s).events = s.events ++ [Event.closeEvent])
  ∧ (s.transitioning = true → s.ariaHidden = true → ¬ s.widthExceeded →
      («show» s).ariaHidden = false
    ∧ («show» s).events = s.events ++ [Event.openEvent]) := by
  constructor
  · intro _ _
    rw [hide_eq]
    exact ⟨rfl, rfl⟩
  · intro _ _ hw
    rw [show_eq_of_not_wide s hw]
    exact ⟨rfl, rfl⟩

theorem no_mutual_exclusion_witness :
    (hide midShowState).ariaHidden = true
  ∧ («show» (hide midShowState)).ariaHidden = false :=
  ⟨((no_mutual_exclusion midShowState).1 rfl rfl).1,
   ((no_mutual_exclusion (hide midShowState)).2 rfl rfl (by decide)).1⟩

theorem hide_during_show_transition_counterexample :
    midShowState.transitioning = true
  ∧ midShowState.ariaHidden = false
  ∧ (hide midShowState).ariaHidden = true
  ∧ (hide midShowState).events = midShowState.events ++ [Event.closeEvent] := by
  refine ⟨rfl, rfl, rfl, rfl⟩

theorem dragMove_content_guard (e : TouchMove) (s : Sheet)
    (hH : s.drag.isHeader = false) (hO : s.drag.isOverlay = false)
    (hT : s.drag.isAtTop = false) :
    (panelDragMove e s).1.transform = s.transform
  ∧ (panelDragMove e s).1.drag.isHeader = false
  ∧ (panelDragMove e s).1.drag.isOverlay = false
  ∧ (panelDragMove e s).1.drag.isAtTop = false
  ∧ (panelDragMove e s).2.preventedDefault = false
  ∧ (panelDragMove e s).2.stoppedPropagation = false := by
  by_cases hd : s.drag.isDragging = false
  · simp [panelDragMove, hd, hH, hO, hT]
  · simp [panelDragMove, hd, hH, hO, hT]

theorem runMoves_content_guard (ms : List TouchMove) (s : Sheet)
    (hH : s.drag.isHeader = false) (hO : s.drag.isOverlay = false)
    (hT : s.drag.isAtTop = false) :
    (runMoves ms s).1.transform = s.transform
  ∧ ∀ eff ∈ (runMoves ms s).2,
      eff.preventedDefault = false ∧ eff.stoppedPropagation = false := by
  induction ms generalizing s with
  | nil => simp [runMoves]
  | cons e ms ih =>
    obtain ⟨h1, h2, h3, h4, h5, h6⟩ := dragMove_content_guard e s hH hO hT
    obtain ⟨ih1, ih2⟩ := ih (panelDragMove e s).1 h2 h3 h4
    simp only [runMoves]
    refine ⟨ih1.trans h1, ?_⟩
    intro eff heff
    rcases List.mem_cons.mp heff with hh | ht
    · subst hh
      exact ⟨h5, h6⟩
    · exact ih2 eff ht

/-- C6: a drag session that started in the content zone with non-zero
`scrollTop` never writes to the panel's transform on any of its touch-move
events, and none of those moves prevents the default or stops propagation —
native scrolling proceeds. -/
theorem content_scroll_not_intercepted (e0 : TouchStart) (ms : List TouchMove)
    (s0 : Sheet) (hH : e0.inHeader = false) (hO : e0.inOverlay = false)
    (hT : s0.contentScrollTop ≠ 0) :
    (runMoves ms (panelDragStart e0 s0)).1.transform = s0.transform
  ∧ ∀ eff ∈ (runMoves ms (panelDragStart e0 s0)).2,
      eff.preventedDefault = false ∧ eff.stoppedPropagation = false := by
  have hflags : (panelDragStart e0 s0).drag.isHeader = false
      ∧ (panelDragStart e0 s0).drag.isOverlay = false
      ∧ (panelDragStart e0 s0).drag.isAtTop = false
      ∧ (panelDragStart e0 s0).transform = s0.transform := by
    simp [panelDragStart, hH, hO, hT]
  obtain ⟨g1, g2⟩ :=
    runMoves_content_guard ms (panelDragStart e0 s0) hflags.1 hflags.2.1 hflags.2.2.1
  exact ⟨g1.trans hflags.2.2.2, g2⟩

theorem content_scroll_not_intercepted_witness :
    (runMoves [{ screenY := 60, cancelable := true }]
        (panelDragStart { screenY := 10, inHeader := false, inOverlay := false }
          (initialSheet ⊤ 500 5 0))).1.transform =
      (initialSheet ⊤ 500 5 0).transform :=
  (content_scroll_not_intercepted
      { screenY := 10, inHeader := false, inOverlay := false }
      [{ screenY := 60, cancelable := true }]
      (initialSheet ⊤ 500 5 0) rfl rfl (by norm_num [initialSheet])).1

/-- C10 (amended): starting from an unlocked body with page scroll offset
`p`, provided the viewport width does not exceed `maxDisplayWidth`
(otherwise `show()` is refused and no lock occurs), `show()` stores `p` and
applies exactly the four inline body styles (`overflow`, `position`, `top`,
`width`); the next `hide()` removes those four properties, restores the
window scroll position to exactly `p` — whatever the offset became in
between — and resets the stored position to 0. -/
theorem bodyScroll_roundTrip (s : Sheet) (q : ℚ)
    (_hUnlocked : s.body = BodyStyle.unlockedStyle)
    (hw : ¬ s.widthExceeded) :
    («show» s).scrollPosition = s.pageYOffset
  ∧ («show» s).body = BodyStyle.lockedStyle s.pageYOffset
  ∧ (hide { «show» s with pageYOffset := q }).body = BodyStyle.unlockedStyle
  ∧ (hide { «show» s with pageYOffset := q }).pageYOffset = s.pageYOffset
  ∧ (hide { «show» s with pageYOffset := q }).scrollPosition = 0 := by
  rw [show_eq_of_not_wide s hw, hide_eq]
  exact ⟨rfl, rfl, rfl, rfl, rfl⟩

theorem bodyScroll_roundTrip_witness :
    («show» noLimitInit).scrollPosition = noLimitInit.pageYOffset
  ∧ (hide { «show» noLimitInit with pageYOffset := 99 }).pageYOffset =
      noLimitInit.pageYOffset
  ∧ noLimitInit.pageYOffset = 30 :=
  ⟨(bodyScroll_roundTrip noLimitInit 99 rfl (by decide)).1,
   (bodyScroll_roundTrip noLimitInit 99 rfl (by decide)).2.2.2.1,
   rfl⟩

theorem bodyScroll_show_refused_counterexample :
    wideInit.body = BodyStyle.unlockedStyle
  ∧ wideInit.pageYOffset = 30
  ∧ «show» wideInit = wideInit
  ∧ («show» wideInit).scrollPosition = 0
  ∧ («show» wideInit).body.position = none := by
  exact ⟨rfl, rfl, rfl, rfl, rfl⟩


/-- C5 (amended): a `show()` attempted while the viewport exceeds
`maxDisplayWidth` is refused silently with no state change; and a resize
notification that is actually delivered to the throttled handler (the
throttle window is open) and finds the width above the threshold while the
sheet is open forces a hide (aria-hidden back to `'true'`, close event
dispatched).  The invariant itself does not hold in every reachable state:
a resize notification arriving inside the 100 ms throttle window is
dropped with no trailing call — and the threshold can be lowered at
runtime — leaving the sheet shown while the viewport exceeds the
threshold until a later notification is delivered. -/
theorem display_width_guards :
    (∀ s : Sheet, s.widthExceeded → «show» s = s)
  ∧ (∀ (t : Widget) (w : ℚ), t.inThrottle = false →
      t.sheet.ariaHidden = false →
      Sheet.widthExceeded { t.sheet with innerWidth := w } →
      (step t (Op.resize w)).sheet.ariaHidden = true
    ∧ (step t (Op.resize w)).sheet.events =
        t.sheet.events ++ [Event.closeEvent]) := by
  refine ⟨show_of_wide, ?_⟩
  intro t w hth _ hwide
  have he : step t (Op.resize w) =
      { sheet := hide { t.sheet with innerWidth := w }, inThrottle := true } := by
    simp [step, hth, windowResizeHandler, hwide]
  rw [he]
  rw [hide_eq]
  exact ⟨rfl, rfl⟩

theorem display_width_guards_witness :
    «show» wideInit = wideInit
  ∧ (step { sheet := midShowState, inThrottle := false }
        (Op.resize 900)).sheet.ariaHidden = true :=
  ⟨display_width_guards.1 wideInit (by decide),
   (display_width_guards.2 { sheet := midShowState, inThrottle := false }
      900 rfl rfl (by decide)).1⟩

theorem throttled_resize_invariant_counterexample :
    (run (connectedW ((768 : ℚ) : WithTop ℚ) 500 0 0)
        [Op.showOp, Op.resize 600, Op.resize 900]).sheet.ariaHidden = false
  ∧ (run (connectedW ((768 : ℚ) : WithTop ℚ) 500 0 0)
        [Op.showOp, Op.resize 600, Op.resize 900]).sheet.widthExceeded
  ∧ ¬ widthInv (run (connectedW ((768 : ℚ) : WithTop ℚ) 500 0 0)
        [Op.showOp, Op.resize 600, Op.resize 900]).sheet := by
  refine ⟨rfl, by decide, ?_⟩
  intro hinv
  exact hinv rfl (by decide)

end BottomSheet
